import Mathlib

/-!
# Verification of `sqlalchemy_fake_model` (ModelFaker)

Shallow embedding of `src/sqlalchemy_fake_model/ModelFaker.py` and its
collaborators, and theorems settling the frozen claims about the field-value
synthesis engine (per-column value-source precedence, skip rules, error
handling and rollback, determinism, JSON doc-string templates, foreign-key
relationship resolution, smart field detection, numeric bounds, and
primary-key primitive synthesis).

Conventions of the embedding:
* Python's `faker` library and the `random` module are external collaborators;
  they are modelled as deterministic draw streams (`List Nat`): each call to a
  generator consumes the head of the stream (0 when exhausted).  The faker
  stream is per `ModelFaker` instance (`Faker` object), while the `random`
  module's stream is process-wide state (`World.grand`).
* The SQLAlchemy session/store is modelled as `DBState`: a list of pending
  (added but uncommitted) rows and a list of committed rows.  Per the store
  contract, an auto-incrementing integer primary key omitted from an inserted
  row is assigned by the store at insert time.
* Fallible Python code returns `Except PyErr`; every stateful function also
  returns its final state (needed because `create` rolls back after catching).
* The mutual recursion between row creation and relationship resolution is
  made total with an explicit fuel parameter (the source has no cycle guard);
  fuel exhaustion is a distinguished error that cannot be confused with any
  Python-level failure.
* Recursive JSON processing (parsing, population, stringification) is fueled
  by the doc string's length, which strictly bounds its nesting depth.
-/

namespace FakeModel

/-- Values as they occur in synthesized rows and populated JSON structures
(Python scalars, `None`, dicts and lists).  Floats, dates and datetimes are
abstract tokens carrying the draw that produced them: no claim depends on
float arithmetic or calendar structure. -/
inductive Value where
  | vstr (s : String)
  | vint (n : Int)
  | vfloat (m : Int)
  | vbool (b : Bool)
  | vdate (d : Nat)
  | vdatetime (d : Nat)
  | vnone
  | vdict (fields : List (String × Value))
  | vlist (items : List Value)

/-- A row under construction / as stored: Python dict from column name to
value, represented as an ordered association list. -/
abbrev Row := List (String × Value)

/-- JSON documents, as produced by `json.loads` on a column's doc string.
Number literals are restricted to integers; the repository's doc-string
templates only use string leaves. -/
inductive JsonVal where
  | jstr (s : String)
  | jint (n : Int)
  | jbool (b : Bool)
  | jnull
  | jarr (items : List JsonVal)
  | jobj (fields : List (String × JsonVal))

/-- SQLAlchemy column types relevant to `ModelColumnTypesEnum` and the
`isinstance` dispatch in `_generate_fake_data`.  `string`/`text` carry the
`length` attribute (`None` when unspecified); `float` carries the `precision`
attribute (the tests pass a `(precision, scale)` tuple); `enum` carries the
allowed values. -/
inductive ColType where
  | string (length : Option Nat)
  | text (length : Option Nat)
  | integer
  | float (precision : Option (Nat × Nat))
  | boolean
  | date
  | datetime
  | enum (values : List String)
  | other (tag : String)

/-- Python truthiness of SQLAlchemy `isinstance(t, String)`: `Text` and
`Enum` are subclasses of `String` (hence the source's comment that `Enum`
must be checked first). -/
def isStringInst : ColType → Bool
  | .string _ => true
  | .text _ => true
  | .enum _ => true
  | _ => false

def isIntegerInst : ColType → Bool
  | .integer => true
  | _ => false

def isFloatInst : ColType → Bool
  | .float _ => true
  | _ => false

def isBooleanInst : ColType → Bool
  | .boolean => true
  | _ => false

def isDateInst : ColType → Bool
  | .date => true
  | _ => false

def isDateTimeInst : ColType → Bool
  | .datetime => true
  | _ => false

def isEnumInst : ColType → Bool
  | .enum _ => true
  | _ => false

/-- The `length` attribute of a string-like type (always present on
`String`/`Text` instances, possibly `None`; the `else 255` default in the
source is dead code for these types).  `Enum`'s derived length is never
reached by the dispatch because enums are handled earlier. -/
def colTypeLength : ColType → Option Nat
  | .string l => l
  | .text l => l
  | _ => none

/-- The `enums` attribute of an `Enum` type. -/
def enumVals : ColType → List String
  | .enum vs => vs
  | _ => []

/-- The `precision` attribute of a `Float` type. -/
def floatPrecision : ColType → Option (Nat × Nat)
  | .float p => p
  | _ => none

/-- A foreign-key entry of `column.foreign_keys`: `fk.column` is the
referenced column, with its name and its table's name. -/
structure FKey where
  table : String
  colName : String

/-- One SQLAlchemy `Column`'s metadata as read by `ModelFaker`.
`default` models `column.default`: `some (some v)` is a `ColumnDefault`
wrapping a non-`None` `arg`, `some none` a `ColumnDefault` with `arg=None`,
`none` no default object at all.  `autoincrement` is the truthiness of
`column.autoincrement` (SQLAlchemy's default `"auto"` is truthy). -/
structure ColumnDef where
  name : String
  type : ColType
  nullable : Option Bool
  default : Option (Option Value)
  primary_key : Bool
  autoincrement : Bool
  foreign_keys : List FKey
  doc : Option String
  info : List (String × Int)

/-- A model handed to `ModelFaker`: a mapped class, or (when `isTable`) a
plain association `Table` lacking `__table__`/`__mapper__`.  `relationships`
models `__mapper__.relationships` as a map from relationship key to the name
of the target model. -/
structure ModelDef where
  name : String
  columns : List ColumnDef
  isTable : Bool
  relationships : List (String × String)

/-- The schema environment: model name to model, used to resolve foreign-key
targets and relationship classes. -/
abbrev Env := List (String × ModelDef)

/-- `ModelFakerConfig` from `Model/ModelFakerConfig.py`. -/
structure ModelFakerConfig where
  fill_nullable_fields : Bool
  fill_default_fields : Bool

def defaultConfig : ModelFakerConfig := ⟨false, false⟩

/-- Python exceptions that can arise in the embedded code paths, plus the
fuel-exhaustion artifact of the embedding. -/
inductive PyErr where
  | invalidAmount (amountRepr : String)
  | jsonDecode (doc : String)
  | indexError
  | keyError (k : String)
  | attributeError (attr : String)
  | typeError (msg : String)
  | runtime (msg : String)
  | fuelExhausted
deriving DecidableEq

/-- Model of `str(e)` for the exceptions above (the exact Python messages are
library-defined; the model only needs them to be injective per error). -/
def errStr : PyErr → String
  | .invalidAmount r => "Invalid amount: " ++ r
  | .jsonDecode d => "Expecting value: " ++ d
  | .indexError => "list index out of range"
  | .keyError k => "KeyError: " ++ k
  | .attributeError a => "object has no attribute " ++ a
  | .typeError m => "TypeError: " ++ m
  | .runtime m => m
  | .fuelExhausted => "maximum recursion depth exceeded"

/-- Model of `traceback.format_exc()`: an opaque trace marker. -/
def traceMark : String := "Traceback (most recent call last)"

/-- The wrapping performed by `create`'s `except` clause:
`RuntimeError(f"Failed to commit: {e} {traceback.format_exc()}")`. -/
def wrapErr (e : PyErr) : PyErr :=
  .runtime ("Failed to commit: " ++ errStr e ++ " " ++ traceMark)

/-- The `amount` argument of `create` as a dynamically-typed Python value
(`isinstance(amount, int)` is the only validation in the source). -/
inductive PyAmount where
  | int (n : Int)
  | str (s : String)
  | float (m : Int)
  | noneV
deriving DecidableEq

/-- Model of `repr`/`str` of the amount, used in `InvalidAmountError`. -/
def amountRepr : PyAmount → String
  | .int n => toString n
  | .str s => s
  | .float m => toString m ++ ".0"
  | .noneV => "None"

/-! ## External collaborator: randomness (`faker` instance and the global
`random` module) -/

/-- A deterministic draw stream: the state of one randomness source.  A fixed
seed corresponds to a fixed stream. -/
abbrev FakerState := List Nat

/-- Consume one draw (0 when the stream is exhausted). -/
def streamDraw : FakerState → Nat × FakerState
  | [] => (0, [])
  | d :: rest => (d, rest)

/-- The faker vocabulary used by the model of `faker.word()`: plain
lowercase alphabetic words (no `@`, no `.`). -/
def wordList : List String := ["alpha", "bravo", "candor", "delta"]

def wordAt (d : Nat) : String := wordList.getD (d % wordList.length) "alpha"

/-- Model of `faker.random_int(min, max)` (the library's defaults are
`min=0, max=9999`): a value in `[lo, hi]` when `lo ≤ hi`. -/
def fakerRandomInt (lo hi : Int) (fk : FakerState) : Int × FakerState :=
  let (d, fk') := streamDraw fk
  (lo + ((d % ((hi - lo).toNat + 1) : Nat) : Int), fk')

/-- Model of `faker.text(max_nb_chars=l)`: text of at most `l` characters. -/
def fakerText (maxChars : Nat) (fk : FakerState) : String × FakerState :=
  let (d, fk') := streamDraw fk
  ((wordAt d).take maxChars, fk')

/-- Model of `faker.date()` (a date string). -/
def fakerDateStr (d : Nat) : String := "2000-01-" ++ toString (d % 28 + 1)

/-- Model of `faker.date_time().isoformat()`. -/
def fakerIsoDateTime (d : Nat) : String :=
  "2000-01-01T00:00:" ++ toString (d % 60)

/-- Model of `faker.email()`-style generation used by the (spec-modelled)
smart field detector: local part, `@`, domain word, `.com`. -/
def fakerEmail (fk : FakerState) : String × FakerState :=
  let (d1, f1) := streamDraw fk
  let (d2, f2) := streamDraw f1
  (wordAt d1 ++ "@" ++ wordAt d2 ++ ".com", f2)

/-! ## External collaborator: the SQLAlchemy session / store -/

/-- The transactional store shared by all `ModelFaker` instances holding the
same session: rows added but not yet committed, and durably committed rows,
each tagged with the model (table) they belong to. -/
structure DBState where
  pending : List (String × Row)
  committed : List (String × Row)

def emptyDB : DBState := ⟨[], []⟩

/-- `session.commit()`: all pending rows become durable. -/
def dbCommit (db : DBState) : DBState := ⟨[], db.committed ++ db.pending⟩

/-- `session.rollback()`: pending rows are discarded; committed rows are
beyond the transaction's reach. -/
def dbRollback (db : DBState) : DBState := ⟨[], db.committed⟩

def envLookup (env : Env) (name : String) : Option ModelDef := env.lookup name

/-- `session.add(model(**data))` / `session.execute(model.insert().values(**data))`:
the row is staged; per the store contract, an auto-incrementing integer
primary key absent from the row is assigned by the store (modelled as the
next ordinal for that model). -/
def dbAdd (env : Env) (mname : String) (row : Row) (db : DBState) : DBState :=
  let cols := ((envLookup env mname).map ModelDef.columns).getD []
  let existing := ((db.pending ++ db.committed).filter (fun p => p.1 == mname)).length
  let auto := cols.filter (fun c =>
    c.primary_key && c.autoincrement && isIntegerInst c.type
      && !((row.map Prod.fst).contains c.name))
  let row' := row ++ auto.map (fun c => (c.name, Value.vint (Int.ofNat existing + 1)))
  { db with pending := db.pending ++ [(mname, row')] }

/-- `session.query(model).first()`: the first visible row of the model
(committed rows precede the autoflushed pending ones). -/
def queryFirst (db : DBState) (mname : String) : Option Row :=
  (((db.committed ++ db.pending).filter (fun p => p.1 == mname)).head?).map Prod.snd

/-- Number of rows of a model visible in the store (pending and committed). -/
def countModel (db : DBState) (mname : String) : Nat :=
  ((db.committed ++ db.pending).filter (fun p => p.1 == mname)).length

/-- `getattr(rowObject, attr)`: a mapped attribute missing from the stored
row reads as `None`. -/
def getattrRow (r : Row) (attr : String) : Value := (r.lookup attr).getD .vnone

/-- Process-wide mutable state outside any single `ModelFaker` instance:
the global `random` module's stream, the entropy supply handed to freshly
constructed (unseeded) `Faker()` instances, and the shared store. -/
structure World where
  grand : FakerState
  fresh : List FakerState
  db : DBState

/-- Constructing `Faker()` without a seed: take the next entropy stream. -/
def popFresh : List FakerState → FakerState × List FakerState
  | [] => ([], [])
  | s :: rest => (s, rest)

/-! ## External collaborator: `json.loads`

A JSON reader over character lists, fueled by the input length (which bounds
the nesting depth).  Escape sequences inside strings are not supported: the
repository's doc-string templates contain none, and every claim-relevant
failure case fails before reaching a string body. -/

/-- Literal brace characters (written via code points). -/
def lbrace : Char := Char.ofNat 123

def rbrace : Char := Char.ofNat 125

def backslashChar : Char := Char.ofNat 92

def squote : String := "\x27"

def sLbrace : String := "\x7b"

def sRbrace : String := "\x7d"

/-- Skip JSON whitespace. -/
def skipWs : List Char → List Char
  | [] => []
  | c :: rest =>
    if c == ' ' || c == '\t' || c == '\n' || c == '\r' then skipWs rest
    else c :: rest

/-- Read a string body up to the closing quote (no escapes). -/
def readStrChars : List Char → Option (List Char × List Char)
  | [] => none
  | c :: rest =>
    if c == '"' then some ([], rest)
    else if c == backslashChar then none
    else (readStrChars rest).map (fun p => (c :: p.1, p.2))

/-- Read a nonempty run of decimal digits as a natural number. -/
def readDigits : List Char → Option (Nat × List Char)
  | s =>
    let ds := s.takeWhile Char.isDigit
    if ds.isEmpty then none
    else some (ds.foldl (fun acc c => acc * 10 + (c.toNat - 48)) 0, s.dropWhile Char.isDigit)

/-- Object members, parameterized by the value reader for one fuel level
down (so that the whole reader is a single structural recursion on fuel). -/
def readMembersF (pv : List Char → Option (JsonVal × List Char)) :
    Nat → List Char → Option (List (String × JsonVal) × List Char)
  | 0, _ => none
  | fuel + 1, s =>
    match skipWs s with
    | c :: rest =>
      if c == '"' then
        match readStrChars rest with
        | some (k, r1) =>
          match skipWs r1 with
          | ':' :: r2 =>
            match pv r2 with
            | some (v, r3) =>
              match skipWs r3 with
              | ',' :: r4 =>
                (readMembersF pv fuel r4).map (fun p => ((String.mk k, v) :: p.1, p.2))
              | c2 :: r4 =>
                if c2 == rbrace then some ([(String.mk k, v)], r4) else none
              | [] => none
            | none => none
          | _ => none
        | none => none
      else none
    | [] => none

/-- Array items, parameterized like `readMembersF`. -/
def readItemsF (pv : List Char → Option (JsonVal × List Char)) :
    Nat → List Char → Option (List JsonVal × List Char)
  | 0, _ => none
  | fuel + 1, s =>
    match pv s with
    | some (v, r1) =>
      match skipWs r1 with
      | ',' :: r2 => (readItemsF pv fuel r2).map (fun p => (v :: p.1, p.2))
      | ']' :: r2 => some ([v], r2)
      | _ => none
    | none => none

/-- One JSON value. -/
def readJsonVal : Nat → List Char → Option (JsonVal × List Char)
  | 0, _ => none
  | fuel + 1, s =>
    match skipWs s with
    | [] => none
    | c :: rest =>
      if c == '"' then
        (readStrChars rest).map (fun p => (JsonVal.jstr (String.mk p.1), p.2))
      else if c == lbrace then
        match skipWs rest with
        | c2 :: r2 =>
          if c2 == rbrace then some (.jobj [], r2)
          else
            (readMembersF (fun s2 => readJsonVal fuel s2) fuel (c2 :: r2)).map
              (fun p => (JsonVal.jobj p.1, p.2))
        | [] => none
      else if c == '[' then
        match skipWs rest with
        | ']' :: r2 => some (.jarr [], r2)
        | r2 =>
          (readItemsF (fun s2 => readJsonVal fuel s2) fuel r2).map
            (fun p => (JsonVal.jarr p.1, p.2))
      else if c == 't' then
        match rest with
        | 'r' :: 'u' :: 'e' :: r => some (.jbool true, r)
        | _ => none
      else if c == 'f' then
        match rest with
        | 'a' :: 'l' :: 's' :: 'e' :: r => some (.jbool false, r)
        | _ => none
      else if c == 'n' then
        match rest with
        | 'u' :: 'l' :: 'l' :: r => some (.jnull, r)
        | _ => none
      else if c == '-' then
        (readDigits rest).map (fun p => (JsonVal.jint (-(Int.ofNat p.1)), p.2))
      else if c.isDigit then
        (readDigits (c :: rest)).map (fun p => (JsonVal.jint (Int.ofNat p.1), p.2))
      else none

/-- `json.loads`: parse the whole string, requiring only trailing whitespace
after the document.  `none` corresponds to `json.JSONDecodeError`. -/
def jsonLoads (s : String) : Option JsonVal :=
  match readJsonVal (s.length + 1) s.data with
  | some (v, rest) => if (skipWs rest).isEmpty then some v else none
  | none => none

/-! ## `_generate_primitive` and `_populate_json_structure` -/

/-- The dynamically-typed argument of `_generate_primitive` (annotated
`str` in the source, but the primary-key branch of `_generate_fake_data`
passes the SQLAlchemy type object instead of a string). -/
inductive PrimArg where
  | jsonLeaf (j : JsonVal)
  | typeObj (t : ColType)

/-- Python `arg == "literal"`: true only when the argument actually is that
string; a type object (or non-string leaf) never equals a `str`. -/
def primArgEqStr (a : PrimArg) (s : String) : Bool :=
  match a with
  | .jsonLeaf (.jstr t) => t == s
  | _ => false

/-- `_generate_primitive`: dispatch on equality with the six type-name
strings, falling back to `faker.word()`. -/
def generate_primitive (a : PrimArg) (fk : FakerState) : Value × FakerState :=
  if primArgEqStr a "boolean" then
    let (d, fk') := streamDraw fk
    (.vbool (d % 2 == 0), fk')
  else if primArgEqStr a "datetime" then
    let (d, fk') := streamDraw fk
    (.vstr (fakerIsoDateTime d), fk')
  else if primArgEqStr a "date" then
    let (d, fk') := streamDraw fk
    (.vstr (fakerDateStr d), fk')
  else if primArgEqStr a "integer" then
    let (n, fk') := fakerRandomInt 0 9999 fk
    (.vint n, fk')
  else if primArgEqStr a "string" then
    let (d, fk') := streamDraw fk
    (.vstr (wordAt d), fk')
  else if primArgEqStr a "float" then
    let (d, fk') := streamDraw fk
    (.vfloat (Int.ofNat d), fk')
  else
    let (d, fk') := streamDraw fk
    (.vstr (wordAt d), fk')

/-- A JSON leaf returned unchanged at the top level of
`_populate_json_structure` (`return structure`). -/
def jsonToValue : JsonVal → Value
  | .jstr s => .vstr s
  | .jint n => .vint n
  | .jbool b => .vbool b
  | .jnull => .vnone
  | .jarr _ => .vnone
  | .jobj _ => .vnone

/-- Dict fields of `_populate_json_structure`, parameterized by the
populator one fuel level down. -/
def populateFieldsF (pe : JsonVal → FakerState → Value × FakerState) :
    List (String × JsonVal) → FakerState → List (String × Value) × FakerState
  | [], fk => ([], fk)
  | (k, j) :: rest, fk =>
    let (v, fk1) := pe j fk
    let (vs, fk2) := populateFieldsF pe rest fk1
    ((k, v) :: vs, fk2)

/-- List items of `_populate_json_structure`, parameterized likewise. -/
def populateItemsF (pe : JsonVal → FakerState → Value × FakerState) :
    List JsonVal → FakerState → List Value × FakerState
  | [], fk => ([], fk)
  | j :: rest, fk =>
    let (v, fk1) := pe j fk
    let (vs, fk2) := populateItemsF pe rest fk1
    (v :: vs, fk2)

/-- One entry inside a container: recurse on dicts/lists, call
`_generate_primitive` on any other leaf. -/
def populateEntry : Nat → JsonVal → FakerState → Value × FakerState
  | 0, _, fk => (.vnone, fk)
  | fuel + 1, j, fk =>
    match j with
    | .jobj fields =>
      let (fs, fk') := populateFieldsF (fun j2 => populateEntry fuel j2) fields fk
      (.vdict fs, fk')
    | .jarr items =>
      let (vs, fk') := populateItemsF (fun j2 => populateEntry fuel j2) items fk
      (.vlist vs, fk')
    | leaf => generate_primitive (.jsonLeaf leaf) fk

/-- `_populate_json_structure`: containers are populated recursively; a
top-level non-container is returned unchanged. -/
def populate_json_structure (fuel : Nat) (j : JsonVal) (fk : FakerState) :
    Value × FakerState :=
  match j with
  | .jobj fields => populateEntry fuel (.jobj fields) fk
  | .jarr items => populateEntry fuel (.jarr items) fk
  | leaf => (jsonToValue leaf, fk)

/-! ## Python `str()` of the populated structure, and (spec-worded) JSON
serialization -/

/-- Dict entries of Python `repr`, parameterized by the printer one fuel
level down. -/
def pyReprFieldsF (pr : Value → String) (fs : List (String × Value)) : String :=
  String.intercalate ", " (fs.map (fun kv => squote ++ kv.1 ++ squote ++ ": " ++ pr kv.2))

def pyReprItemsF (pr : Value → String) (vs : List Value) : String :=
  String.intercalate ", " (vs.map pr)

/-- Python `repr` of a populated value: single-quoted strings,
`True`/`False`/`None`, brace-delimited dicts. -/
def pyRepr : Nat → Value → String
  | 0, _ => ""
  | fuel + 1, v =>
    match v with
    | .vstr s => squote ++ s ++ squote
    | .vint n => toString n
    | .vfloat m => toString m ++ ".0"
    | .vbool b => if b then "True" else "False"
    | .vnone => "None"
    | .vdate d => "datetime.date(" ++ toString d ++ ")"
    | .vdatetime d => "datetime.datetime(" ++ toString d ++ ")"
    | .vdict fs => sLbrace ++ pyReprFieldsF (fun v2 => pyRepr fuel v2) fs ++ sRbrace
    | .vlist vs => "[" ++ pyReprItemsF (fun v2 => pyRepr fuel v2) vs ++ "]"

/-- Python `str()` as applied by `_generate_fake_data` to the populated
structure: a bare string prints without quotes, anything else as `repr`. -/
def pyStr (fuel : Nat) (v : Value) : String :=
  match v with
  | .vstr s => s
  | v => pyRepr fuel v

/-- Spec-worded definition, for comparison with the code: "the textual JSON
serialization of the populated structure" (`json.dumps` conventions:
double-quoted strings, `true`/`false`/`null`). -/
def jsonSerialize : Nat → Value → String
  | 0, _ => ""
  | fuel + 1, v =>
    match v with
    | .vstr s => "\"" ++ s ++ "\""
    | .vint n => toString n
    | .vfloat m => toString m ++ ".0"
    | .vbool b => if b then "true" else "false"
    | .vnone => "null"
    | .vdate d => "\"1970-01-" ++ toString d ++ "\""
    | .vdatetime d => "\"1970-01-01T" ++ toString d ++ "\""
    | .vdict fs =>
      sLbrace ++
        String.intercalate ", "
          (fs.map (fun kv => "\"" ++ kv.1 ++ "\": " ++ jsonSerialize fuel kv.2)) ++
        sRbrace
    | .vlist vs =>
      "[" ++ String.intercalate ", " (vs.map (fun v2 => jsonSerialize fuel v2)) ++ "]"

/-! ## Skip rules (`__should_skip_field` and its helpers) -/

/-- `__is_field_auto_increment`: truthy `autoincrement` and integer type. -/
def is_field_auto_increment (c : ColumnDef) : Bool :=
  c.autoincrement && isIntegerInst c.type

/-- `__has_field_default_value`: a `ColumnDefault` instance with a
non-`None` `arg`, unless `fill_default_fields` is set. -/
def has_field_default_value (cfg : ModelFakerConfig) (c : ColumnDef) : Bool :=
  (match c.default with
    | some (some _) => true
    | _ => false)
    && !cfg.fill_default_fields

/-- `__is_field_nullable`: `nullable is not None and nullable is True`,
unless `fill_nullable_fields` is set. -/
def is_field_nullable (cfg : ModelFakerConfig) (c : ColumnDef) : Bool :=
  (match c.nullable with
    | some b => b
    | none => false)
    && !cfg.fill_nullable_fields

/-- `__should_skip_field`. -/
def should_skip_field (cfg : ModelFakerConfig) (c : ColumnDef) : Bool :=
  (c.primary_key && is_field_auto_increment c)
    || has_field_default_value cfg c
    || is_field_nullable cfg c

/-! ## Value sources and the per-column dispatch -/

/-- Which `return` statement of `_generate_fake_data` produced a value. -/
inductive Source where
  | docTemplate
  | enumChoice
  | foreignKey
  | primaryKey
  | typeString
  | typeInteger
  | typeFloat
  | typeBoolean
  | typeDate
  | typeDatetime
  | noneFallback
deriving DecidableEq

/-- The five value sources of the specification's precedence invariant. -/
inductive SpecSource where
  | docTemplate
  | enumChoice
  | foreignKey
  | primaryKeyPrim
  | typeFallback
deriving DecidableEq

/-- Collapse a return site to its spec-level value source (all generic
type-based returns, including the final `return None`, are the fallback). -/
def Source.toSpec : Source → SpecSource
  | .docTemplate => .docTemplate
  | .enumChoice => .enumChoice
  | .foreignKey => .foreignKey
  | .primaryKey => .primaryKeyPrim
  | _ => .typeFallback

/-- Truthiness of `column.doc` (`if column.doc:`): the doc string when it is
present and non-empty. -/
def docOpt (c : ColumnDef) : Option String :=
  match c.doc with
  | some d => if d.isEmpty then none else some d
  | none => none

/-- Spec-worded definition of the precedence invariant: "doc-string JSON
template takes precedence over enum, which takes precedence over foreign
key, which takes precedence over primary-key-as-primitive, which takes
precedence over type-based fallback" (a column "carries a doc-string" when
`column.doc` is truthy, i.e. present and non-empty). -/
def spec_value_source (c : ColumnDef) : SpecSource :=
  if (docOpt c).isSome then .docTemplate
  else if isEnumInst c.type then .enumChoice
  else if !c.foreign_keys.isEmpty then .foreignKey
  else if c.primary_key then .primaryKeyPrim
  else .typeFallback

/-- The generic `isinstance` chain of `_generate_fake_data` (source lines
154-189): String (with the `length` attribute; `faker.text(max_nb_chars=None)`
raises `TypeError`), Integer (with `info` bounds), Float (with `precision`),
Boolean, Date, DateTime, `return None`.  It only reads the column and the
instance's faker stream. -/
def typeDispatch (c : ColumnDef) (fk : FakerState) :
    Except PyErr (Source × Value) × FakerState :=
  if isStringInst c.type then
    match colTypeLength c.type with
    | some l =>
      let (t, fk') := fakerText l fk
      (.ok (.typeString, .vstr t), fk')
    | none => (.error (.typeError "max_nb_chars"), fk)
  else if isIntegerInst c.type then
    if c.info.isEmpty then
      let (n, fk') := fakerRandomInt 0 9999 fk
      (.ok (.typeInteger, .vint n), fk')
    else
      let minv := (c.info.lookup "min").getD 1
      let maxv := (c.info.lookup "max").getD 100
      let (n, fk') := fakerRandomInt minv maxv fk
      (.ok (.typeInteger, .vint n), fk')
  else if isFloatInst c.type then
    match floatPrecision c.type with
    | none =>
      let (d, fk') := streamDraw fk
      (.ok (.typeFloat, .vfloat (Int.ofNat d)), fk')
    | some (p, s) =>
      let (d, fk') := streamDraw fk
      (.ok (.typeFloat, .vfloat (Int.ofNat (d % 10 ^ (p - s)))), fk')
  else if isBooleanInst c.type then
    let (d, fk') := streamDraw fk
    (.ok (.typeBoolean, .vbool (d % 2 == 0)), fk')
  else if isDateInst c.type then
    let (d, fk') := streamDraw fk
    (.ok (.typeDate, .vdate d), fk')
  else if isDateTimeInst c.type then
    let (d, fk') := streamDraw fk
    (.ok (.typeDatetime, .vdatetime d), fk')
  else (.ok (.noneFallback, .vnone), fk)

/-- The world-independent tail of `_generate_fake_data`: the primary-key
primitive branch (which passes the type object, not a type-name string, to
`_generate_primitive`), then the generic type dispatch. -/
def nonRelDispatch (c : ColumnDef) (fk : FakerState) :
    Except PyErr (Source × Value) × FakerState :=
  if c.primary_key then
    let (v, fk') := generate_primitive (.typeObj c.type) fk
    (.ok (.primaryKey, v), fk')
  else typeDispatch c fk

/-- `__get_related_class`: a declared relationship keyed by the column's
name wins; otherwise the first foreign key's target table. -/
def get_related_class (env : Env) (m : ModelDef) (c : ColumnDef) :
    Except PyErr ModelDef :=
  match (if m.isTable then none else m.relationships.lookup c.name) with
  | some target =>
    match envLookup env target with
    | some pm => .ok pm
    | none => .error (.keyError target)
  | none =>
    match c.foreign_keys with
    | [] => .error .indexError
    | fk0 :: _ =>
      match envLookup env fk0.table with
      | some pm => .ok pm
      | none => .error (.keyError fk0.table)

/-! ## Row construction and `create`

`buildRowG`/`createRowsG`/`createG` are the loop of `create` (source lines
99-121), parameterized by the per-column generator so that the mutually
recursive knot with relationship resolution is tied only in
`generate_fake_data` (fueled). -/

/-- Python dict assignment `data[k] = v` (replace in place or append). -/
def dictSet (row : Row) (k : String) (v : Value) : Row :=
  match row with
  | [] => [(k, v)]
  | (k', v') :: rest => if k' == k then (k, v) :: rest else (k', v') :: dictSet rest k v

/-- The inner column loop of `create`: skip or generate each column in
order, accumulating the row dict. -/
def buildRowG
    (gen : ColumnDef → FakerState → World → Except PyErr (Source × Value) × FakerState × World)
    (cfg : ModelFakerConfig) (cols : List ColumnDef) (acc : Row) (fk : FakerState)
    (w : World) : Except PyErr Row × FakerState × World :=
  match cols with
  | [] => (.ok acc, fk, w)
  | c :: rest =>
    if should_skip_field cfg c then buildRowG gen cfg rest acc fk w
    else
      match gen c fk w with
      | (.error e, fk', w') => (.error e, fk', w')
      | (.ok sv, fk', w') => buildRowG gen cfg rest (dictSet acc c.name sv.2) fk' w'

/-- The outer row loop of `create`: build and stage `n` rows. -/
def createRowsG
    (gen : ColumnDef → FakerState → World → Except PyErr (Source × Value) × FakerState × World)
    (env : Env) (m : ModelDef) (cfg : ModelFakerConfig) :
    Nat → FakerState → World → Except PyErr Unit × FakerState × World
  | 0, fk, w => (.ok (), fk, w)
  | n + 1, fk, w =>
    match buildRowG gen cfg m.columns [] fk w with
    | (.error e, fk', w') => (.error e, fk', w')
    | (.ok row, fk', w') =>
      createRowsG gen env m cfg n fk' { w' with db := dbAdd env m.name row w'.db }

/-- `create`: `isinstance(amount, int)` validation (before the `try`, so a
rejected amount touches nothing), then the row loop and a single `commit`;
any exception inside the `try` triggers `rollback` and is re-raised wrapped
as `RuntimeError(f"Failed to commit: {e} {traceback.format_exc()}")`. -/
def createG
    (gen : ColumnDef → FakerState → World → Except PyErr (Source × Value) × FakerState × World)
    (m : ModelDef) (cfg : ModelFakerConfig) (env : Env) (fk : FakerState)
    (amount : PyAmount) (w : World) : Except PyErr Unit × FakerState × World :=
  match amount with
  | .int n =>
    match createRowsG gen env m cfg n.toNat fk w with
    | (.ok _, fk', w') => (.ok (), fk', { w' with db := dbCommit w'.db })
    | (.error e, fk', w') => (.error (wrapErr e), fk', { w' with db := dbRollback w'.db })
  | a => (.error (.invalidAmount (amountRepr a)), fk, w)

/-- `_generate_fake_data` (source lines 135-189) together with
`__handle_relationship` (191-200): the per-column value resolver.  Returns
the produced value tagged with the `return` site that produced it.  The
foreign-key branch constructs a nested `ModelFaker(parent_model, self.db)`
with a fresh unseeded `Faker()` and default configuration, runs its
`create()` (one row), then reads the referenced attribute off the first
queried row. -/
def generate_fake_data (env : Env) :
    Nat → ModelDef → ColumnDef → FakerState → World →
      Except PyErr (Source × Value) × FakerState × World
  | 0, _, _, fk, w => (.error .fuelExhausted, fk, w)
  | fuel + 1, m, c, fk, w =>
    match docOpt c with
    | some d =>
      match jsonLoads d with
      | none => (.error (.jsonDecode d), fk, w)
      | some j =>
        let (v, fk') := populate_json_structure (d.length + 1) j fk
        (.ok (.docTemplate, .vstr (pyStr (d.length + 1) v)), fk', w)
    | none =>
      if isEnumInst c.type then
        match enumVals c.type with
        | [] => (.error .indexError, fk, w)
        | e :: es =>
          let (d, g') := streamDraw w.grand
          (.ok (.enumChoice, .vstr ((e :: es).getD (d % (e :: es).length) e)), fk,
            { w with grand := g' })
      else
        match c.foreign_keys with
        | fk0 :: _ =>
          match get_related_class env m c with
          | .error er => (.error er, fk, w)
          | .ok pm =>
            let (freshFk, fresh') := popFresh w.fresh
            match
              createG (fun c2 fk2 w2 => generate_fake_data env fuel pm c2 fk2 w2) pm
                defaultConfig env freshFk (.int 1) { w with fresh := fresh' } with
            | (.error er, _, w') => (.error er, fk, w')
            | (.ok _, _, w') =>
              match queryFirst w'.db pm.name with
              | none => (.error (.attributeError fk0.colName), fk, w')
              | some r => (.ok (.foreignKey, getattrRow r fk0.colName), fk, w')
        | [] =>
          let (r, fk') := nonRelDispatch c fk
          (r, fk', w)

/-- `ModelFaker(model, db, faker, config).create(amount)` for one instance:
the generator is `_generate_fake_data` of that instance, driven by the given
fuel. -/
def create (env : Env) (fuel : Nat) (m : ModelDef) (cfg : ModelFakerConfig)
    (fk : FakerState) (amount : PyAmount) (w : World) :
    Except PyErr Unit × FakerState × World :=
  createG (fun c fk2 w2 => generate_fake_data env fuel m c fk2 w2) m cfg env fk amount w

/-! ## Smart field detection

Modelled from the spec: the `SmartFieldDetector` class and its consultation
by the value resolver are part of this repository but are not under `src/`
(only `src/tests/test_smart_field_detector.py` and the newer tests reference
them), so they are modelled from spec section 4.3: an ordered table of
semantic categories matched by case-insensitive substring containment of
keywords in the column name, the first matching category winning (email is
checked before address parts). -/

def startsWithChars : List Char → List Char → Bool
  | [], _ => true
  | _ :: _, [] => false
  | n :: ns, h :: hs => n == h && startsWithChars ns hs

def containsChars (needle : List Char) : List Char → Bool
  | [] => needle.isEmpty
  | h :: hs => startsWithChars needle (h :: hs) || containsChars needle hs

/-- Case-sensitive substring containment on already-lowercased names. -/
def containsSub (hay needle : String) : Bool := containsChars needle.data hay.data

/-- Model of Python `str.lower()` for ASCII column names, over the character
list (the core library's `String.toLower` walks byte positions, which the
kernel cannot evaluate). -/
def lowerChar (c : Char) : Char :=
  if 'A' ≤ c ∧ c ≤ 'Z' then Char.ofNat (c.toNat + 32) else c

def lowerString (s : String) : String := String.mk (s.data.map lowerChar)

/-- The semantic categories of spec section 4.3, in their fixed order. -/
inductive SmartCat where
  | email
  | fullName
  | firstName
  | lastName
  | address
  | phone
  | url
  | company
  | jobTitle
  | description
  | username
  | password
  | timestamp
  | price
  | age
  | score
deriving DecidableEq

/-- Modelled from the spec: the ordered keyword table ("'email' anywhere in
the name, 'phone'/'tel' anywhere, 'price'/'cost'/'amount' anywhere"; the
remaining keyword lists follow the category names). -/
def smartTable : List (SmartCat × List String) :=
  [(.email, ["email"]),
   (.fullName, ["full_name", "fullname", "display_name"]),
   (.firstName, ["first_name", "firstname"]),
   (.lastName, ["last_name", "lastname", "surname"]),
   (.address, ["address", "street", "city", "zip", "state", "country"]),
   (.phone, ["phone", "tel"]),
   (.url, ["url", "link", "website"]),
   (.company, ["company", "organization"]),
   (.jobTitle, ["job", "position"]),
   (.description, ["description", "bio", "summary"]),
   (.username, ["username", "login"]),
   (.password, ["password"]),
   (.timestamp, ["birth", "created", "updated"]),
   (.price, ["price", "cost", "amount"]),
   (.age, ["age"]),
   (.score, ["score", "rating"])]

/-- First category (in table order) one of whose keywords occurs in the
lowercased column name. -/
def smartCategory (lowerName : String) : Option SmartCat :=
  (smartTable.find? (fun e => e.2.any (fun kw => containsSub lowerName kw))).map Prod.fst

/-- Modelled from the spec: a category-appropriate value (email a
syntactically valid address; password a fixed 64-character hash-looking
string; age in `[1, 100]`; score/rating in `[1, 10]`; price non-negative and
consistent with the declared numeric type). -/
def smartValue (cat : SmartCat) (t : ColType) (fk : FakerState) : Value × FakerState :=
  match cat with
  | .email =>
    let (e, fk') := fakerEmail fk
    (.vstr e, fk')
  | .fullName =>
    let (d1, f1) := streamDraw fk
    let (d2, f2) := streamDraw f1
    (.vstr (wordAt d1 ++ " " ++ wordAt d2), f2)
  | .firstName =>
    let (d, fk') := streamDraw fk
    (.vstr (wordAt d), fk')
  | .lastName =>
    let (d, fk') := streamDraw fk
    (.vstr (wordAt d), fk')
  | .address =>
    let (d, fk') := streamDraw fk
    (.vstr (toString (d % 1000) ++ " " ++ wordAt d ++ " st"), fk')
  | .phone =>
    let (d, fk') := streamDraw fk
    (.vstr ("+1-555-" ++ toString (d % 10000)), fk')
  | .url =>
    let (d, fk') := streamDraw fk
    (.vstr ("https://" ++ wordAt d ++ ".com"), fk')
  | .company =>
    let (d, fk') := streamDraw fk
    (.vstr (wordAt d ++ " inc"), fk')
  | .jobTitle =>
    let (d, fk') := streamDraw fk
    (.vstr (wordAt d), fk')
  | .description =>
    let (d1, f1) := streamDraw fk
    let (d2, f2) := streamDraw f1
    (.vstr (wordAt d1 ++ " " ++ wordAt d2), f2)
  | .username =>
    let (d, fk') := streamDraw fk
    (.vstr (wordAt d ++ toString (d % 100)), fk')
  | .password =>
    let (d, fk') := streamDraw fk
    (.vstr (String.mk (List.replicate 64 (Char.ofNat (97 + d % 6)))), fk')
  | .timestamp =>
    let (d, fk') := streamDraw fk
    (.vdatetime d, fk')
  | .price =>
    let (d, fk') := streamDraw fk
    if isFloatInst t then (.vfloat (Int.ofNat d), fk')
    else (.vint (Int.ofNat d), fk')
  | .age =>
    let (d, fk') := streamDraw fk
    (.vint (1 + Int.ofNat (d % 100)), fk')
  | .score =>
    let (d, fk') := streamDraw fk
    (.vint (1 + Int.ofNat (d % 10)), fk')

/-- Modelled from the spec: `SmartFieldDetector.detect_and_generate` —
detect a category from the column's name (case-insensitively) and generate a
value for it; `none` is no-match. -/
def detect_and_generate (c : ColumnDef) (fk : FakerState) :
    Option (Value × FakerState) :=
  (smartCategory (lowerString c.name)).map (fun cat => smartValue cat c.type fk)

/-- Column types eligible for smart detection per the spec: String, Integer,
Float, Date, DateTime. -/
def smartEligible (t : ColType) : Bool :=
  match t with
  | .string _ => true
  | .integer => true
  | .float _ => true
  | .date => true
  | .datetime => true
  | _ => false

/-- A return site for smart-detected values in the modelled resolver. -/
inductive SmartSource where
  | smartDetected
  | generic (s : Source)
deriving DecidableEq

/-- Modelled from the spec: the resolver tail with smart detection — "Smart
Field Detector (4.3) is consulted before this generic dispatch whenever
smart detection is enabled and the column is a String/Integer/Float/Date/
DateTime type; its result, if any, wins over the generic rule."  The
primary-key branch and the generic dispatch are the source's own
(`nonRelDispatch`/`typeDispatch`). -/
def smart_dispatch (smartOn : Bool) (c : ColumnDef) (fk : FakerState) :
    Except PyErr (SmartSource × Value) × FakerState :=
  if c.primary_key then
    let (v, fk') := generate_primitive (.typeObj c.type) fk
    (.ok (.generic .primaryKey, v), fk')
  else if smartOn && smartEligible c.type then
    match detect_and_generate c fk with
    | some (v, fk') => (.ok (.smartDetected, v), fk')
    | none =>
      match typeDispatch c fk with
      | (.ok sv, fk') => (.ok (.generic sv.1, sv.2), fk')
      | (.error e, fk') => (.error e, fk')
  else
    match typeDispatch c fk with
    | (.ok sv, fk') => (.ok (.generic sv.1, sv.2), fk')
    | (.error e, fk') => (.error e, fk')

/-! ## Concrete fixtures used by witnesses, counterexamples and scenario
theorems -/

/-- A plain non-nullable column of the given type (SQLAlchemy's default
`autoincrement="auto"` is truthy). -/
def mkCol (name : String) (t : ColType) : ColumnDef :=
  { name := name, type := t, nullable := some false, default := none,
    primary_key := false, autoincrement := true, foreign_keys := [],
    doc := none, info := [] }

/-- A model whose identity is irrelevant (non-relationship columns never
read their model). -/
def mDum : ModelDef := ⟨"m", [], false, []⟩

def w0 : World := ⟨[], [], emptyDB⟩

/-- A world whose global `random` stream holds the draws 0 then 1. -/
def w01 : World := ⟨[0, 1], [], emptyDB⟩

/-- A `Text` column whose doc string is the JSON template `{"a": "string"}`
(braces written as code points). -/
def docCol : ColumnDef :=
  { mkCol "j" (.text none) with doc := some "\x7b\"a\": \"string\"\x7d" }

/-- The expected emitted value for `docCol` under draw stream `[0]`:
Python `str()` of the populated dict, `{'a': 'alpha'}`. -/
def pyOutStr : String := "\x7b\x27a\x27: \x27alpha\x27\x7d"

/-- The parsed template of `docCol`. -/
def docJ : JsonVal := .jobj [("a", .jstr "string")]

/-- The round-trip template of the claim:
`{"a": "string", "b": ["integer", "float"]}`. -/
def tmplStr : String := "\x7b\"a\": \"string\", \"b\": [\"integer\", \"float\"]\x7d"

def tmplJ : JsonVal :=
  .jobj [("a", .jstr "string"), ("b", .jarr [.jstr "integer", .jstr "float"])]

def tmplCol : ColumnDef := { mkCol "t" (.text none) with doc := some tmplStr }

/-- An enum column with two allowed values. -/
def enumCol : ColumnDef := mkCol "status" (.enum ["A", "B"])

/-- A `String(16)` column (used for determinism witnesses). -/
def strCol : ColumnDef := mkCol "s" (.string (some 16))

/-- An `Integer` column with an empty `info` map. -/
def intCol : ColumnDef := mkCol "n" .integer

/-- An `Integer` column with `info={"min": 5, "max": 7}`. -/
def intColInfo : ColumnDef := { mkCol "n" .integer with info := [("min", 5), ("max", 7)] }

/-- A non-auto-generated `Boolean` primary key (not skipped: its type is not
integer). -/
def boolPk : ColumnDef := { mkCol "flag" .boolean with primary_key := true }

/-- A `String(255)` column named `email`. -/
def emailCol : ColumnDef := mkCol "email" (.string (some 255))

/-- Parent model: a single auto-incrementing integer primary key (skipped;
assigned by the store). -/
def parentM : ModelDef :=
  ⟨"parent", [{ mkCol "id" .integer with primary_key := true }], false, []⟩

/-- Child model: auto primary key plus a foreign key to `parent.id`. -/
def childM : ModelDef :=
  ⟨"child",
    [{ mkCol "id" .integer with primary_key := true },
     { mkCol "parent_id" .integer with foreign_keys := [⟨"parent", "id"⟩] }],
    false, []⟩

def env7 : Env := [("parent", parentM), ("child", childM)]

/-- The store contents after creating one `childM` row in an empty store:
one parent row and one child row. -/
def dbC7 : DBState :=
  ⟨[], [("parent", [("id", .vint 1)]),
        ("child", [("parent_id", .vint 1), ("id", .vint 1)])]⟩

/-- The world after a one-row create cycle on the empty parent model: one
committed parent row with its store-assigned primary key. -/
def wP : World := ⟨[], [], ⟨[], [("parent", [("id", .vint 1)])]⟩⟩

/-- Child model whose second column has a doc string that is not JSON:
building one row first resolves the foreign key (committing a parent row via
the nested cycle) and then fails. -/
def childBad : ModelDef :=
  ⟨"childb",
    [{ mkCol "parent_id" .integer with foreign_keys := [⟨"parent", "id"⟩] },
     { mkCol "bd" (.text none) with doc := some "notjson" }],
    false, []⟩

def env3 : Env := [("parent", parentM), ("childb", childBad)]

/-- A generator that always raises (used to instantiate `createG` theorems
at a concrete failing input without touching the store). -/
def genFail : ColumnDef → FakerState → World →
    Except PyErr (Source × Value) × FakerState × World :=
  fun _ fk w => (.error (.jsonDecode "oops"), fk, w)

/-- A generator that always produces `None` without touching any state
(used to instantiate generator-parametric theorems at concrete inputs). -/
def genConst : ColumnDef → FakerState → World →
    Except PyErr (Source × Value) × FakerState × World :=
  fun _ fk w => (.ok (.noneFallback, .vnone), fk, w)

/-- Claim-worded predicate for smart email values: the string contains
exactly one `@` and at least one `.` after it. -/
def emailShapeB (e : String) : Bool :=
  (e.data.count '@' == 1)
    && (((e.data.dropWhile (fun ch => ch != '@')).drop 1).contains '.')

/-! # Theorems -/

/-! ## Claim C4 (code bug): negative amounts are accepted -/

/-- C4: the claim (and the repository's own test `test_edge_case_negative_amount`)
says every negative integer amount fails with an invalid-amount error before
any store interaction.  The code only checks `isinstance(amount, int)`:
`create(-1)` runs an empty loop and still issues a `commit`, while only
non-integer amounts (here `"5"`) are rejected before touching the store. -/
theorem create_negative_amount_accepted :
    (∀ gen m cfg env fk w, createG gen m cfg env fk (.int (-1)) w
        = (.ok (), fk, { w with db := dbCommit w.db }))
  ∧ (∀ gen m cfg env fk w, createG gen m cfg env fk (.str "5") w
        = (.error (.invalidAmount "5"), fk, w)) :=
  ⟨fun _ _ _ _ _ _ => rfl, fun _ _ _ _ _ _ => rfl⟩

/-! ## Claim C10 (code bug): primary-key primitives do not match the
declared type -/

/-- C10: the claim says a non-auto-generated primary key gets a bare
primitive matching its declared type.  `_generate_fake_data` passes the
SQLAlchemy type object (not a type-name string) to `_generate_primitive`
(annotated `primitive_type: str`), so every comparison fails and a Boolean
primary key receives `faker.word()` — a text word, not a boolean. -/
theorem primary_key_primitive_returns_word :
    (generate_fake_data [] 1 mDum boolPk [0] w0).1 = .ok (.primaryKey, .vstr "alpha")
  ∧ ∀ b, Value.vstr "alpha" ≠ Value.vbool b :=
  ⟨rfl, fun _ h => Value.noConfusion h⟩

/-! ## Claim C9: integer bounds (amended) -/

/-- C9 (amended): for an `Integer` column resolved by the type-based
fallback whose `info` map is non-empty, every produced value lies in
`[info.min or 1, info.max or 100]` (inclusive), provided the bounds are
ordered.  (When `info` is empty the code calls `faker.random_int()` with the
library's default range instead — see the counterexample.) -/
theorem integer_info_bounds (env : Env) (fuel : Nat) (m : ModelDef) (c : ColumnDef)
    (fk : FakerState) (w : World) (minv maxv n : Int) (src : Source)
    (fk' : FakerState) (w' : World)
    (hdoc : c.doc = none) (htype : c.type = .integer) (hfks : c.foreign_keys = [])
    (hpk : c.primary_key = false) (hinfo : c.info.isEmpty = false)
    (hmin : minv = (c.info.lookup "min").getD 1)
    (hmax : maxv = (c.info.lookup "max").getD 100)
    (hle : minv ≤ maxv)
    (h : generate_fake_data env (fuel + 1) m c fk w = (.ok (src, .vint n), fk', w')) :
    minv ≤ n ∧ n ≤ maxv := by
  obtain ⟨nm, ty, nb, df, pk, ai, fks, dc, inf⟩ := c
  simp only at hdoc htype hfks hpk hinfo hmin hmax
  subst hdoc htype hfks hpk hmin hmax
  rcases inf with - | ⟨i0, irest⟩
  · simp at hinfo
  · have h' : ((Except.ok (Source.typeInteger,
        Value.vint ((((i0 :: irest).lookup "min").getD 1) +
          ((((streamDraw fk).1 %
            (((((i0 :: irest).lookup "max").getD 100) -
              (((i0 :: irest).lookup "min").getD 1)).toNat + 1)) : Nat) : Int))) :
          Except PyErr (Source × Value)),
        (streamDraw fk).2, w)
        = (.ok (src, .vint n), fk', w') := h
    simp only [Prod.mk.injEq, Except.ok.injEq, Value.vint.injEq] at h'
    obtain ⟨⟨hsrc, hn⟩, hfk2, hw⟩ := h'
    have hb : (streamDraw fk).1 %
        (((((i0 :: irest).lookup "max").getD 100) -
          (((i0 :: irest).lookup "min").getD 1)).toNat + 1)
        < ((((i0 :: irest).lookup "max").getD 100) -
          (((i0 :: irest).lookup "min").getD 1)).toNat + 1 :=
      Nat.mod_lt _ (Nat.succ_pos _)
    omega

/-- Witness for `integer_info_bounds`: the column with
`info={"min": 5, "max": 7}` and draw stream `[9]` produces the value `5`,
which the theorem places in `[5, 7]`. -/
theorem integer_info_bounds_witness :
    intColInfo.info.isEmpty = false ∧ ((5 : Int) ≤ 5 ∧ (5 : Int) ≤ 7) :=
  ⟨rfl, integer_info_bounds [] 0 mDum intColInfo [9] w0 5 7 5 .typeInteger [] w0
    rfl rfl rfl rfl rfl rfl rfl (by decide) rfl⟩

/-- C9 counterexample: an `Integer` column whose `info` map is empty is
generated with `faker.random_int()` and the library's default range, not
`[1, 100]`: the produced value can be `0`. -/
theorem integer_empty_info_out_of_bounds :
    (generate_fake_data [] 1 mDum intCol [0] w0).1 = .ok (.typeInteger, .vint 0)
  ∧ ¬(1 ≤ (0 : Int) ∧ (0 : Int) ≤ 100) :=
  ⟨rfl, by decide⟩

/-! ## Claim C5: determinism and isolation (amended) -/

/-- C5 (amended): for a column that is neither enum-typed nor carries a
foreign key, the resolver's produced value and resulting faker state are a
function of the column and the instance's own faker stream alone —
independent of the model, the process-wide `random` stream, the fresh-faker
entropy supply and the store.  Hence two instances whose fakers were seeded
identically produce identical value sequences for such columns regardless of
interleaving.  (Enum columns draw from the process-wide `random` module and
foreign-key resolution constructs a fresh unseeded `Faker()`, so those two
sources are exempt — see the counterexample.) -/
theorem generate_depends_only_on_instance_faker (env : Env) (fuel : Nat)
    (m1 m2 : ModelDef) (c : ColumnDef) (fk : FakerState) (w1 w2 : World)
    (hfks : c.foreign_keys = []) (henum : isEnumInst c.type = false) :
    (generate_fake_data env fuel m1 c fk w1).1 = (generate_fake_data env fuel m2 c fk w2).1
  ∧ (generate_fake_data env fuel m1 c fk w1).2.1
      = (generate_fake_data env fuel m2 c fk w2).2.1 := by
  cases fuel with
  | zero => exact ⟨rfl, rfl⟩
  | succ fuel =>
    cases hdoc : docOpt c with
    | some d =>
      constructor <;> simp only [generate_fake_data, hdoc] <;>
        cases jsonLoads d <;> rfl
    | none =>
      constructor <;>
        simp only [generate_fake_data, hdoc, henum, Bool.false_eq_true, if_false, hfks]

/-- Witness for `generate_depends_only_on_instance_faker`: a `String(16)`
column generated by two instances with the same faker stream `[3]` but
different models and different global random streams. -/
theorem generate_depends_only_on_instance_faker_witness :
    strCol.foreign_keys = [] ∧ isEnumInst strCol.type = false
  ∧ ((generate_fake_data [] 1 mDum strCol [3] w0).1
        = (generate_fake_data [] 1 parentM strCol [3] w01).1
    ∧ (generate_fake_data [] 1 mDum strCol [3] w0).2.1
        = (generate_fake_data [] 1 parentM strCol [3] w01).2.1) :=
  ⟨rfl, rfl, generate_depends_only_on_instance_faker [] 1 mDum parentM strCol [3] w0 w01 rfl rfl⟩

/-- C5 counterexample: enum values are drawn from the process-wide `random`
module, not the per-instance faker.  The same instance (same faker state
`[]`, same column, same configuration) gets `"A"` when it runs first on the
global stream `[0, 1]`, but `"B"` when another instance's enum draw is
interleaved before it — so identically-configured instances are not
byte-identical independent of call interleaving. -/
theorem enum_value_depends_on_interleaving :
    (generate_fake_data [] 1 mDum enumCol [] w01).1 = .ok (.enumChoice, .vstr "A")
  ∧ (generate_fake_data [] 1 mDum enumCol []
        (generate_fake_data [] 1 mDum enumCol [] w01).2.2).1
      = .ok (.enumChoice, .vstr "B")
  ∧ ("A" : String) ≠ "B" :=
  ⟨rfl, rfl, by decide⟩

/-! ## Claim C6: doc-string template output -/

/-- C6 counterexample: the resolver emits Python `str()` of the populated
structure, not its JSON serialization: for the template `{"a": "string"}`
and draw stream `[0]` the emitted value is `{'a': 'alpha'}` (single-quoted),
which differs from the JSON serialization `{"a": "alpha"}` of the same
populated structure and is itself rejected by the JSON reader. -/
theorem doc_template_output_not_json :
    jsonLoads "\x7b\"a\": \"string\"\x7d" = some docJ
  ∧ (generate_fake_data [] 1 mDum docCol [0] w0).1 = .ok (.docTemplate, .vstr pyOutStr)
  ∧ jsonSerialize 16 (populate_json_structure 16 docJ [0]).1 = "\x7b\"a\": \"alpha\"\x7d"
  ∧ pyOutStr ≠ "\x7b\"a\": \"alpha\"\x7d"
  ∧ jsonLoads pyOutStr = none :=
  ⟨rfl, rfl, rfl, by decide, rfl⟩

/-! ## Claim C1: value-source precedence -/

/-- Helper: every successful return of the generic type dispatch is a
type-based-fallback source. -/
theorem typeDispatch_ok_toSpec (c : ColumnDef) (fk : FakerState) (sv : Source × Value)
    (fk2 : FakerState) (h : typeDispatch c fk = (.ok sv, fk2)) :
    sv.1.toSpec = .typeFallback := by
  unfold typeDispatch at h
  repeat' split at h
  all_goals simp_all [Prod.mk.injEq, Except.ok.injEq, Source.toSpec]
  all_goals (obtain ⟨h1, h2⟩ := h; subst h1; rfl)

/-- Helper: the world-independent dispatch tail resolves to the primary-key
source exactly when the column is a primary key, otherwise to the
type-based fallback. -/
theorem nonRelDispatch_ok_toSpec (c : ColumnDef) (fk : FakerState) (sv : Source × Value)
    (fk2 : FakerState) (h : nonRelDispatch c fk = (.ok sv, fk2)) :
    sv.1.toSpec = (if c.primary_key then SpecSource.primaryKeyPrim else .typeFallback) := by
  unfold nonRelDispatch at h
  by_cases hpk : c.primary_key
  · simp only [hpk, if_true] at h ⊢
    obtain ⟨h1, h2⟩ : ((Source.primaryKey, (generate_primitive (.typeObj c.type) fk).1) = sv
        ∧ (generate_primitive (.typeObj c.type) fk).2 = fk2) := by
      simpa [Prod.mk.injEq, Except.ok.injEq] using h
    subst h1
    rfl
  · simp only [hpk, if_false, Bool.false_eq_true] at h ⊢
    exact typeDispatch_ok_toSpec c fk sv fk2 h

/-- C1: whenever the resolver succeeds, the return site that produced the
value is exactly the one selected by the spec's precedence order (doc
template > enum > foreign key > primary-key primitive > type fallback), and
the earlier-source short-circuit is visible in the state: a doc-template,
primary-key or fallback resolution leaves the entire world untouched (in
particular the enum branch's global `random` draw and the foreign-key
branch's store activity never happen), an enum resolution touches only the
global `random` stream, and a foreign-key resolution never consumes the
instance's own faker stream. -/
theorem generate_value_source_precedence (env : Env) (fuel : Nat) (m : ModelDef)
    (c : ColumnDef) (fk : FakerState) (w : World) (sv : Source × Value)
    (fk' : FakerState) (w' : World)
    (h : generate_fake_data env (fuel + 1) m c fk w = (.ok sv, fk', w')) :
    sv.1.toSpec = spec_value_source c
  ∧ (spec_value_source c = .docTemplate → w' = w)
  ∧ (spec_value_source c = .enumChoice → fk' = fk ∧ w'.db = w.db ∧ w'.fresh = w.fresh)
  ∧ (spec_value_source c = .foreignKey → fk' = fk)
  ∧ (spec_value_source c = .primaryKeyPrim → w' = w)
  ∧ (spec_value_source c = .typeFallback → w' = w) := by
  cases hdoc : docOpt c with
  | some d =>
    have hspec : spec_value_source c = .docTemplate := by
      simp [spec_value_source, hdoc]
    rw [hspec]
    simp only [generate_fake_data, hdoc] at h
    cases hj : jsonLoads d with
    | none => rw [hj] at h; simp at h
    | some j =>
      rw [hj] at h
      simp only [Prod.mk.injEq, Except.ok.injEq] at h
      obtain ⟨hsv, -, hw⟩ := h
      subst hsv
      refine ⟨rfl, ?_, ?_, ?_, ?_, ?_⟩
      · exact fun _ => hw.symm
      · exact fun hx => nomatch hx
      · exact fun hx => nomatch hx
      · exact fun hx => nomatch hx
      · exact fun hx => nomatch hx
  | none =>
    by_cases henum : isEnumInst c.type = true
    · have hspec : spec_value_source c = .enumChoice := by
        simp [spec_value_source, hdoc, henum]
      rw [hspec]
      simp only [generate_fake_data, hdoc, henum, if_true] at h
      cases hev : enumVals c.type with
      | nil => rw [hev] at h; simp at h
      | cons e es =>
        rw [hev] at h
        simp only [Prod.mk.injEq, Except.ok.injEq] at h
        obtain ⟨hsv, hfk, hw⟩ := h
        subst hsv
        refine ⟨rfl, ?_, ?_, ?_, ?_, ?_⟩
        · exact fun hx => nomatch hx
        · exact fun _ => ⟨hfk.symm, by rw [← hw], by rw [← hw]⟩
        · exact fun hx => nomatch hx
        · exact fun hx => nomatch hx
        · exact fun hx => nomatch hx
    · have henum' : isEnumInst c.type = false := by simpa using henum
      cases hfks : c.foreign_keys with
      | cons fk0 rest =>
        have hspec : spec_value_source c = .foreignKey := by
          simp [spec_value_source, hdoc, henum', hfks]
        rw [hspec]
        simp only [generate_fake_data, hdoc, henum', Bool.false_eq_true, if_false, hfks] at h
        cases hrel : get_related_class env m c with
        | error er => rw [hrel] at h; simp at h
        | ok pm =>
          rw [hrel] at h
          rcases hpf : popFresh w.fresh with ⟨ffk, fr'⟩
          rw [hpf] at h
          dsimp only at h
          rcases hcre : createG (fun c2 fk2 w2 => generate_fake_data env fuel pm c2 fk2 w2) pm
              defaultConfig env ffk (.int 1) { w with fresh := fr' } with ⟨rc, fkc, wc⟩
          rw [hcre] at h
          cases rc with
          | error er => simp at h
          | ok u =>
            dsimp only at h
            cases hq : queryFirst wc.db pm.name with
            | none => rw [hq] at h; simp at h
            | some r =>
              rw [hq] at h
              simp only [Prod.mk.injEq, Except.ok.injEq] at h
              obtain ⟨hsv, hfk, hw⟩ := h
              subst hsv
              refine ⟨rfl, ?_, ?_, ?_, ?_, ?_⟩
              · exact fun hx => nomatch hx
              · exact fun hx => nomatch hx
              · exact fun _ => hfk.symm
              · exact fun hx => nomatch hx
              · exact fun hx => nomatch hx
      | nil =>
        have hspec : spec_value_source c
            = (if c.primary_key then SpecSource.primaryKeyPrim else .typeFallback) := by
          simp [spec_value_source, hdoc, henum', hfks]
        simp only [generate_fake_data, hdoc, henum', Bool.false_eq_true, if_false, hfks] at h
        rcases hnd : nonRelDispatch c fk with ⟨rn, fkn⟩
        rw [hnd] at h
        have h' : (rn, fkn, w) = ((Except.ok sv : Except PyErr (Source × Value)), fk', w') := h
        simp only [Prod.mk.injEq] at h'
        obtain ⟨hrn, hfk, hw⟩ := h'
        subst hrn
        have hts := nonRelDispatch_ok_toSpec c fk sv fkn hnd
        rw [hspec, hts]
        by_cases hpk : c.primary_key
        · simp only [hpk, if_true]
          refine ⟨by trivial, ?_, ?_, ?_, ?_, ?_⟩
          · exact fun hx => nomatch hx
          · exact fun hx => nomatch hx
          · exact fun hx => nomatch hx
          · exact fun _ => hw.symm
          · exact fun hx => nomatch hx
        · simp only [hpk, if_false, Bool.false_eq_true]
          refine ⟨by trivial, ?_, ?_, ?_, ?_, ?_⟩
          · exact fun hx => nomatch hx
          · exact fun hx => nomatch hx
          · exact fun hx => nomatch hx
          · exact fun hx => nomatch hx
          · exact fun _ => hw.symm

/-- Witness for `generate_value_source_precedence`: the doc-string column
(which is also skippable by none of the later sources) resolves through the
doc-template source with the world untouched. -/
theorem generate_value_source_precedence_witness :
    (Source.docTemplate, Value.vstr pyOutStr).1.toSpec = spec_value_source docCol
  ∧ (spec_value_source docCol = .docTemplate → w0 = w0)
  ∧ (spec_value_source docCol = .enumChoice →
      ([] : FakerState) = [0] ∧ w0.db = w0.db ∧ w0.fresh = w0.fresh)
  ∧ (spec_value_source docCol = .foreignKey → ([] : FakerState) = [0])
  ∧ (spec_value_source docCol = .primaryKeyPrim → w0 = w0)
  ∧ (spec_value_source docCol = .typeFallback → w0 = w0) :=
  generate_value_source_precedence [] 0 mDum docCol [0] w0
    (.docTemplate, .vstr pyOutStr) [] w0 rfl

/-! ## Claim C2: the skip rule -/

/-- Helper: keys of a Python dict after `data[k] = v`. -/
theorem dictSet_keys (row : Row) (k : String) (v : Value) (nm : String) :
    nm ∈ (dictSet row k v).map Prod.fst ↔ nm ∈ row.map Prod.fst ∨ nm = k := by
  induction row with
  | nil => simp [dictSet]
  | cons kv rest ih =>
    obtain ⟨k', v'⟩ := kv
    by_cases hk : k' = k
    · subst hk
      simp [dictSet]
      tauto
    · have hk' : (k' == k) = false := by simp [hk]
      simp [dictSet, hk', ih]
      tauto

/-- Helper: the column loop of `create` behaves identically on a column list
and on the same list with the skipped columns removed — for an arbitrary
per-column generator, so a skipped column never invokes any value source. -/
theorem buildRowG_filter
    (gen : ColumnDef → FakerState → World → Except PyErr (Source × Value) × FakerState × World)
    (cfg : ModelFakerConfig) :
    ∀ (cols : List ColumnDef) (acc : Row) (fk : FakerState) (w : World),
      buildRowG gen cfg cols acc fk w
        = buildRowG gen cfg (cols.filter (fun c => !should_skip_field cfg c)) acc fk w := by
  intro cols
  induction cols with
  | nil => intro acc fk w; rfl
  | cons c rest ih =>
    intro acc fk w
    by_cases hs : should_skip_field cfg c = true
    · simp only [buildRowG, hs, if_true, List.filter_cons, Bool.not_true,
        Bool.false_eq_true, if_false]
      exact ih acc fk w
    · have hs' : should_skip_field cfg c = false := by simpa using hs
      simp only [buildRowG, hs', List.filter_cons, Bool.not_false, if_true,
        Bool.false_eq_true, if_false]
      cases hg : gen c fk w with
      | mk r p =>
        obtain ⟨fkg, wg⟩ := p
        cases r with
        | error e => rfl
        | ok sv => exact ih (dictSet acc c.name sv.2) fkg wg

/-- Helper: the keys of a successfully built row are the accumulator's keys
plus the names of exactly the non-skipped columns. -/
theorem buildRowG_keys
    (gen : ColumnDef → FakerState → World → Except PyErr (Source × Value) × FakerState × World)
    (cfg : ModelFakerConfig) :
    ∀ (cols : List ColumnDef) (acc : Row) (fk : FakerState) (w : World) row fk' w',
      buildRowG gen cfg cols acc fk w = (.ok row, fk', w') →
      ∀ nm, nm ∈ row.map Prod.fst ↔
        nm ∈ acc.map Prod.fst
          ∨ nm ∈ (cols.filter (fun c => !should_skip_field cfg c)).map ColumnDef.name := by
  intro cols
  induction cols with
  | nil =>
    intro acc fk w row fk' w' h nm
    have h' : ((Except.ok acc : Except PyErr Row), fk, w) = (.ok row, fk', w') := h
    simp only [Prod.mk.injEq, Except.ok.injEq] at h'
    obtain ⟨rfl, -, -⟩ := h'
    simp
  | cons c rest ih =>
    intro acc fk w row fk' w' h nm
    by_cases hs : should_skip_field cfg c = true
    · rw [show buildRowG gen cfg (c :: rest) acc fk w = buildRowG gen cfg rest acc fk w by
        simp [buildRowG, hs]] at h
      rw [List.filter_cons]
      simp only [hs, Bool.not_true, Bool.false_eq_true, if_false]
      exact ih acc fk w row fk' w' h nm
    · have hs' : should_skip_field cfg c = false := by simpa using hs
      rw [show buildRowG gen cfg (c :: rest) acc fk w
          = (match gen c fk w with
             | (.error e, fkg, wg) => (.error e, fkg, wg)
             | (.ok sv, fkg, wg) => buildRowG gen cfg rest (dictSet acc c.name sv.2) fkg wg) by
        simp [buildRowG, hs']] at h
      rcases hg : gen c fk w with ⟨r, fkg, wg⟩
      rw [hg] at h
      cases r with
      | error e => simp at h
      | ok sv =>
        have := ih (dictSet acc c.name sv.2) fkg wg row fk' w' h nm
        rw [this, dictSet_keys]
        rw [List.filter_cons]
        simp only [hs', Bool.not_false, if_true]
        simp only [List.map_cons, List.mem_cons]
        tauto

/-- C2: for every per-column generator, the skip decision is taken before
any value-source resolution — the column loop of `create` is unchanged when
the skipped columns are deleted from the schema up front (so a skipped
column never has a value generated, whatever doc string, enum type or
foreign key it carries) — and, for a schema with distinct column names, a
column's name appears in the built row exactly when `__should_skip_field`
rejects it: not an auto-increment integer primary key, no retained default,
not an unfilled nullable column. -/
theorem skip_rule_decides_row_membership
    (gen : ColumnDef → FakerState → World → Except PyErr (Source × Value) × FakerState × World)
    (cfg : ModelFakerConfig) (cols : List ColumnDef) (fk : FakerState) (w : World) :
    (buildRowG gen cfg cols [] fk w
       = buildRowG gen cfg (cols.filter (fun c => !should_skip_field cfg c)) [] fk w)
  ∧ (∀ row fk' w', (cols.map ColumnDef.name).Nodup →
      buildRowG gen cfg cols [] fk w = (.ok row, fk', w') →
      ∀ c ∈ cols, (c.name ∈ row.map Prod.fst ↔ should_skip_field cfg c = false)) := by
  refine ⟨buildRowG_filter gen cfg cols [] fk w, ?_⟩
  intro row fk' w' hnd h c hc
  have hk := buildRowG_keys gen cfg cols [] fk w row fk' w' h c.name
  simp only [List.map_nil, List.not_mem_nil, false_or] at hk
  rw [hk]
  constructor
  · intro hmem
    rcases List.mem_map.mp hmem with ⟨c', hc', hname⟩
    rcases List.mem_filter.mp hc' with ⟨hc'mem, hc'skip⟩
    have : c' = c := List.inj_on_of_nodup_map hnd hc'mem hc hname
    subst this
    simpa using hc'skip
  · intro hns
    exact List.mem_map.mpr ⟨c, List.mem_filter.mpr ⟨hc, by simp [hns]⟩, rfl⟩

/-- Witness for `skip_rule_decides_row_membership`: building one row of the
child model (auto-increment integer primary key skipped, foreign-key column
generated) with the constant generator. -/
theorem skip_rule_decides_row_membership_witness :
    (childM.columns.map ColumnDef.name).Nodup
  ∧ ∀ c ∈ childM.columns,
      (c.name ∈ ([("parent_id", Value.vnone)] : Row).map Prod.fst
        ↔ should_skip_field defaultConfig c = false) :=
  ⟨by decide,
    (skip_rule_decides_row_membership genConst defaultConfig childM.columns [] w0).2
      [("parent_id", .vnone)] [] w0 (by decide) rfl⟩

/-! ## Claim C3: rollback and error wrapping on failure (amended) -/

/-- Helper: the column loop never changes the committed rows when the
generator does not. -/
theorem buildRowG_committed
    (gen : ColumnDef → FakerState → World → Except PyErr (Source × Value) × FakerState × World)
    (cfg : ModelFakerConfig)
    (H : ∀ c fk2 w2, ((gen c fk2 w2).2.2).db.committed = w2.db.committed) :
    ∀ (cols : List ColumnDef) (acc : Row) (fk : FakerState) (w : World),
      (((buildRowG gen cfg cols acc fk w).2.2).db.committed) = w.db.committed := by
  intro cols
  induction cols with
  | nil => intro acc fk w; rfl
  | cons c rest ih =>
    intro acc fk w
    by_cases hs : should_skip_field cfg c = true
    · simp only [buildRowG, hs, if_true]
      exact ih acc fk w
    · have hs' : should_skip_field cfg c = false := by simpa using hs
      simp only [buildRowG, hs', Bool.false_eq_true, if_false]
      rcases hg : gen c fk w with ⟨r, fkg, wg⟩
      have hgw : wg.db.committed = w.db.committed := by
        have h2 := H c fk w
        rw [hg] at h2
        exact h2
      cases r with
      | error e => exact hgw
      | ok sv => exact (ih (dictSet acc c.name sv.2) fkg wg).trans hgw

/-- Helper: the row loop stages rows (pending only) and never changes the
committed rows when the generator does not. -/
theorem createRowsG_committed
    (gen : ColumnDef → FakerState → World → Except PyErr (Source × Value) × FakerState × World)
    (env : Env) (m : ModelDef) (cfg : ModelFakerConfig)
    (H : ∀ c fk2 w2, ((gen c fk2 w2).2.2).db.committed = w2.db.committed) :
    ∀ (n : Nat) (fk : FakerState) (w : World),
      (((createRowsG gen env m cfg n fk w).2.2).db.committed) = w.db.committed := by
  intro n
  induction n with
  | zero => intro fk w; rfl
  | succ n ih =>
    intro fk w
    rcases hb : buildRowG gen cfg m.columns [] fk w with ⟨r, fkb, wb⟩
    have hbc : wb.db.committed = w.db.committed := by
      have h2 := buildRowG_committed gen cfg H m.columns [] fk w
      rw [hb] at h2
      exact h2
    simp only [createRowsG]
    rw [hb]
    cases r with
    | error e => exact hbc
    | ok row =>
      exact (ih fkb { wb with db := dbAdd env m.name row wb.db }).trans hbc

/-- C3 (amended): when an integer-amount `create` call fails, the
transaction's uncommitted portion is rolled back (no pending rows remain)
and the original failure is re-raised wrapped with diagnostic context
including a trace; and provided the per-column generator never enlarges the
committed rows (i.e. no foreign-key resolution commits the shared session
mid-batch), no rows from the failed call remain committed.  (With
foreign-key columns the nested relationship cycle commits the shared
session, so rows can survive the rollback — see the counterexample.) -/
theorem create_failure_rolls_back
    (gen : ColumnDef → FakerState → World → Except PyErr (Source × Value) × FakerState × World)
    (m : ModelDef) (cfg : ModelFakerConfig) (env : Env) (fk : FakerState) (n : Int)
    (w : World) (e : PyErr) (fk' : FakerState) (w' : World)
    (H : ∀ c fk2 w2, ((gen c fk2 w2).2.2).db.committed = w2.db.committed)
    (h : createG gen m cfg env fk (.int n) w = (.error e, fk', w')) :
    w'.db.committed = w.db.committed ∧ w'.db.pending = [] ∧ ∃ e0, e = wrapErr e0 := by
  unfold createG at h
  dsimp only at h
  rcases hc : createRowsG gen env m cfg n.toNat fk w with ⟨rc, fkc, wc⟩
  rw [hc] at h
  have hcc : wc.db.committed = w.db.committed := by
    have h2 := createRowsG_committed gen env m cfg H n.toNat fk w
    rw [hc] at h2
    exact h2
  cases rc with
  | ok u => simp at h
  | error e0 =>
    simp only [Prod.mk.injEq, Except.error.injEq] at h
    obtain ⟨he, -, hw⟩ := h
    subst he
    refine ⟨?_, ?_, ⟨e0, rfl⟩⟩
    · rw [← hw]; exact hcc
    · rw [← hw]; rfl

/-- Witness for `create_failure_rolls_back`: a generator that raises a JSON
decode error on the child model's foreign-key column. -/
theorem create_failure_rolls_back_witness :
    w0.db.committed = w0.db.committed ∧ w0.db.pending = []
  ∧ ∃ e0, wrapErr (.jsonDecode "oops") = wrapErr e0 :=
  create_failure_rolls_back genFail childM defaultConfig [] [] 1 w0
    (wrapErr (.jsonDecode "oops")) [] w0 (fun _ _ _ => rfl) rfl

/-- C3 counterexample: a failed `create` call can leave rows committed.
Building the single requested row of `childBad` first resolves its
foreign-key column (the nested cycle creates and commits a parent row on the
shared session) and then fails on the malformed doc string; `create` rolls
back and re-raises the wrapped error, but the parent row created during the
failed call survives — the batch is not rolled back as a unit. -/
theorem create_failure_can_leave_row_committed :
    (create env3 2 childBad defaultConfig [] (.int 1) w0).1
      = .error (wrapErr (.jsonDecode "notjson"))
  ∧ countModel (create env3 2 childBad defaultConfig [] (.int 1) w0).2.2.db "parent" = 1
  ∧ (create env3 2 childBad defaultConfig [] (.int 1) w0).2.2.db.pending = [] :=
  ⟨rfl, rfl, rfl⟩

/-! ## Claim C6: doc-string template population (amended) -/

/-- C6 (amended): for the claim's template
`{"a": "string", "b": ["integer", "float"]}` the resolver parses the doc
string, populates it, and emits the Python `str()` of the populated
structure (not its JSON serialization — see the counterexample); the
populated structure always has the template's shape, with a string at `a`
and a two-element list holding an integer then a float at `b`. -/
theorem doc_template_populates_and_stringifies :
    jsonLoads tmplStr = some tmplJ
  ∧ (∀ env fuel m fk w, generate_fake_data env (fuel + 1) m tmplCol fk w
      = (.ok (.docTemplate,
          .vstr (pyStr (tmplStr.length + 1)
            (populate_json_structure (tmplStr.length + 1) tmplJ fk).1)),
         (populate_json_structure (tmplStr.length + 1) tmplJ fk).2, w))
  ∧ (∀ fk, ∃ s nInt mFloat fk',
      populate_json_structure (tmplStr.length + 1) tmplJ fk
        = (.vdict [("a", .vstr s), ("b", .vlist [.vint nInt, .vfloat mFloat])], fk')) := by
  refine ⟨rfl, ?_, ?_⟩
  · intro env fuel m fk w
    rfl
  · intro fk
    rcases fk with - | ⟨d1, - | ⟨d2, - | ⟨d3, r⟩⟩⟩
    · exact ⟨_, _, _, _, rfl⟩
    · exact ⟨_, _, _, _, rfl⟩
    · exact ⟨_, _, _, _, rfl⟩
    · exact ⟨_, _, _, _, rfl⟩

/-! ## Claim C7: relationship resolution -/

/-- Helper: commit does not change how many rows of a model are visible. -/
theorem countModel_commit (db : DBState) (nm : String) :
    countModel (dbCommit db) nm = countModel db nm := by
  simp [countModel, dbCommit, List.filter_append]

/-- Helper: staging a row of a model adds exactly one visible row of it. -/
theorem countModel_add_self (env : Env) (nm : String) (row : Row) (db : DBState) :
    countModel (dbAdd env nm row db) nm = countModel db nm + 1 := by
  simp [countModel, dbAdd, List.filter_append]
  omega

/-- Helper: a model with visible rows has a first queried row. -/
theorem queryFirst_of_countModel_pos (db : DBState) (nm : String)
    (h : 0 < countModel db nm) : ∃ r, queryFirst db nm = some r := by
  unfold countModel at h
  rcases hfl : (db.committed ++ db.pending).filter (fun p => p.1 == nm) with - | ⟨a, l⟩
  · rw [hfl] at h; simp at h
  · exact ⟨a.2, by simp [queryFirst, hfl]⟩

/-- Helper: the column loop leaves the store untouched when the generator
does. -/
theorem buildRowG_db
    (gen : ColumnDef → FakerState → World → Except PyErr (Source × Value) × FakerState × World)
    (cfg : ModelFakerConfig)
    (H : ∀ c fk2 w2, ((gen c fk2 w2).2.2).db = w2.db) :
    ∀ (cols : List ColumnDef) (acc : Row) (fk : FakerState) (w : World),
      (((buildRowG gen cfg cols acc fk w).2.2).db) = w.db := by
  intro cols
  induction cols with
  | nil => intro acc fk w; rfl
  | cons c rest ih =>
    intro acc fk w
    by_cases hs : should_skip_field cfg c = true
    · simp only [buildRowG, hs, if_true]
      exact ih acc fk w
    · have hs' : should_skip_field cfg c = false := by simpa using hs
      simp only [buildRowG, hs', Bool.false_eq_true, if_false]
      rcases hg : gen c fk w with ⟨r, fkg, wg⟩
      have hgw : wg.db = w.db := by
        have h2 := H c fk w
        rw [hg] at h2
        exact h2
      cases r with
      | error e => exact hgw
      | ok sv => exact (ih (dictSet acc c.name sv.2) fkg wg).trans hgw

/-- Helper: the nested `create()` run by the relationship resolver on the
referenced model stages exactly one row of it and commits, so exactly one
row of the referenced model is added; when the referenced model had no rows,
a first row can afterwards be queried. -/
theorem createG_one_row_count
    (gen : ColumnDef → FakerState → World → Except PyErr (Source × Value) × FakerState × World)
    (pm : ModelDef) (cfg : ModelFakerConfig) (env : Env) (fkS : FakerState) (w : World)
    (u : Unit) (fk' : FakerState) (w' : World)
    (H : ∀ c fk2 w2, ((gen c fk2 w2).2.2).db = w2.db)
    (h : createG gen pm cfg env fkS (.int 1) w = (.ok u, fk', w')) :
    countModel w'.db pm.name = countModel w.db pm.name + 1
  ∧ (countModel w.db pm.name = 0 → ∃ r, queryFirst w'.db pm.name = some r) := by
  unfold createG at h
  dsimp only at h
  rcases hb : buildRowG gen cfg pm.columns [] fkS w with ⟨rb, fkb, wb⟩
  have hdb : wb.db = w.db := by
    have h2 := buildRowG_db gen cfg H pm.columns [] fkS w
    rw [hb] at h2
    exact h2
  rw [show Int.toNat 1 = 1 from rfl] at h
  simp only [createRowsG] at h
  rw [hb] at h
  cases rb with
  | error e => simp at h
  | ok row =>
    simp only [createRowsG, Prod.mk.injEq, Except.ok.injEq] at h
    obtain ⟨-, -, hw⟩ := h
    have hwdb : w'.db = dbCommit (dbAdd env pm.name row wb.db) := by rw [← hw]
    rw [hwdb, countModel_commit, countModel_add_self, hdb]
    refine ⟨rfl, ?_⟩
    intro h0
    apply queryFirst_of_countModel_pos
    rw [countModel_commit, countModel_add_self]
    omega

/-- C7: a one-row create cycle on the referenced model (as run by
`__handle_relationship` on the shared store handle) results in exactly one
additional row of that model, and when the referenced model had zero rows a
first row is queryable afterwards; end to end, creating one row of a child
model whose foreign key references an empty parent model leaves exactly one
parent row and one child row in the store. -/
theorem relationship_resolution_creates_one_parent :
    (∀ gen (pm : ModelDef) cfg env fkS w (u : Unit) fk' w',
       (∀ c fk2 w2, ((gen c fk2 w2).2.2).db = w2.db) →
       createG gen pm cfg env fkS (.int 1) w = (.ok u, fk', w') →
       countModel w'.db pm.name = countModel w.db pm.name + 1
       ∧ (countModel w.db pm.name = 0 → ∃ r, queryFirst w'.db pm.name = some r))
  ∧ (∀ g fr fkS, ∃ fr',
       create env7 2 childM defaultConfig fkS (.int 1) ⟨g, fr, emptyDB⟩
         = (.ok (), fkS, ⟨g, fr', dbC7⟩))
  ∧ countModel dbC7 "parent" = 1 ∧ countModel dbC7 "child" = 1 := by
  refine ⟨createG_one_row_count, ?_, rfl, rfl⟩
  intro g fr fkS
  rcases fr with - | ⟨f0, fr⟩
  · exact ⟨[], rfl⟩
  · exact ⟨fr, rfl⟩

/-- Witness for `relationship_resolution_creates_one_parent`: the nested
create cycle on the empty parent model, run with the constant generator,
adds exactly one parent row. -/
theorem relationship_resolution_creates_one_parent_witness :
    countModel wP.db "parent" = countModel w0.db "parent" + 1
  ∧ (countModel w0.db "parent" = 0 → ∃ r, queryFirst wP.db "parent" = some r) :=
  relationship_resolution_creates_one_parent.1 genConst parentM defaultConfig env7 [] w0
    () [] wP (fun _ _ _ => rfl) rfl

/-! ## Claim C8: smart field detection (spec-modelled) -/

/-- Helper: every faker word is one of the four vocabulary words. -/
theorem wordAt_cases (d : Nat) :
    wordAt d = "alpha" ∨ wordAt d = "bravo" ∨ wordAt d = "candor" ∨ wordAt d = "delta" := by
  have h4 : d % 4 < 4 := Nat.mod_lt _ (by decide)
  have he : wordAt d = wordList.getD (d % 4) "alpha" := rfl
  rcases (show d % 4 = 0 ∨ d % 4 = 1 ∨ d % 4 = 2 ∨ d % 4 = 3 by omega) with h | h | h | h <;>
    rw [he, h] <;> decide

/-- Helper: every generated email has exactly one `@` and a `.` after it. -/
theorem emailShapeB_fakerEmail (d1 d2 : Nat) :
    emailShapeB (wordAt d1 ++ "@" ++ wordAt d2 ++ ".com") = true := by
  rcases wordAt_cases d1 with h1 | h1 | h1 | h1 <;>
    rcases wordAt_cases d2 with h2 | h2 | h2 | h2 <;>
      rw [h1, h2] <;> decide

/-- C8: in the spec-modelled resolver tail with smart detection enabled, the
Smart Field Detector is consulted before the generic type dispatch and a
detector match wins over the generic rule; and a `String` column named
`email` always produces a value containing exactly one `@` with at least one
`.` after it. -/
theorem smart_detection_email :
    (∀ c fk v fk2, c.primary_key = false → smartEligible c.type = true →
       detect_and_generate c fk = some (v, fk2) →
       smart_dispatch true c fk = (.ok (.smartDetected, v), fk2))
  ∧ (∀ fk, ∃ e fk', smart_dispatch true emailCol fk = (.ok (.smartDetected, .vstr e), fk')
       ∧ emailShapeB e = true) := by
  constructor
  · intro c fk v fk2 hpk helig hdet
    simp only [smart_dispatch, hpk, Bool.false_eq_true, if_false, helig, Bool.and_self,
      if_true, hdet]
  · intro fk
    exact ⟨wordAt (streamDraw fk).1 ++ "@" ++ wordAt (streamDraw (streamDraw fk).2).1 ++ ".com",
      (streamDraw (streamDraw fk).2).2, rfl, emailShapeB_fakerEmail _ _⟩

/-- Witness for `smart_detection_email`: the `email` column on the empty
draw stream produces `alpha@alpha.com`. -/
theorem smart_detection_email_witness :
    smart_dispatch true emailCol [] = (.ok (.smartDetected, .vstr "alpha@alpha.com"), [])
  ∧ (∃ e fk', smart_dispatch true emailCol [] = (.ok (.smartDetected, .vstr e), fk')
      ∧ emailShapeB e = true) :=
  ⟨smart_detection_email.1 emailCol [] (.vstr "alpha@alpha.com") [] rfl rfl rfl,
   smart_detection_email.2 []⟩

end FakeModel
